import Mathlib

/-!
# Verification of the `serial-mock` crate (`src/lib.rs`)

Shallow embedding of the mock serial port `MockableSerial` and its
operations (`new`, `open_native`, `write`, `read`, `add_response`,
and the builder `MockableSerialBuilder.new`), followed by theorems
settling the specification claims about them.

Bytes (`u8`) are carried as `Nat`: the code never performs arithmetic
on byte values, only equality comparison, so `Nat` is a faithful
carrier.  A Rust panic (an `unwrap` of an absent element) is modelled
by `Option.none`; `std::io::Result` is modelled by `IoResult`.
-/

/-- Embeds `std::io::ErrorKind` restricted to the only variant this
crate ever constructs (`ErrorKind::Other`, line 101 of `lib.rs`). -/
inductive ErrorKind where
  | other
deriving Repr, DecidableEq

/-- Embeds `Result<(), std::io::Error>` as returned by `read`/`write`:
`ok` is `Ok(())`, `err k m` is `Err(Error::new(k, m))`. -/
inductive IoResult where
  | ok
  | err (k : ErrorKind) (msg : String)
deriving Repr, DecidableEq

/-- Embeds the struct `MockableSerial` (lines 26–36 of `lib.rs`).
`Vec<u8>` becomes `List Nat`, `VecDeque` becomes `List` with the front
at the head, `String` stays `String`. -/
structure MockableSerial where
  address : String
  baud : Nat
  actual_success : Bool
  actual_response : List Nat
  response_queue : List (List Nat)
  success_queue : List (Bool × ErrorKind)
  stop_byte : Nat
  read_n_bytes : Nat
  last_read_index : Nat
deriving Repr, DecidableEq

namespace MockableSerial

/-- Embeds `SerialMock::new` for `MockableSerial` (lines 47–59). -/
def new (address : String) (baud : Nat) (stop_byte : Nat)
    (read_n_bytes : Nat) : MockableSerial :=
  { address := address
    baud := baud
    stop_byte := stop_byte
    read_n_bytes := read_n_bytes
    actual_success := true
    actual_response := []
    response_queue := []
    last_read_index := 0
    success_queue := [] }

/-- Embeds `open_native` (lines 61–73): a field-by-field copy of `self`.
In the pure embedding the deep copy of each field is the field itself. -/
def open_native (s : MockableSerial) : MockableSerial :=
  { address := s.address
    baud := s.baud
    stop_byte := s.stop_byte
    read_n_bytes := s.read_n_bytes
    actual_success := s.actual_success
    actual_response := s.actual_response
    response_queue := s.response_queue
    last_read_index := s.last_read_index
    success_queue := s.success_queue }

/-- Embeds `write` (lines 75–77): returns `Ok(())`; `&self` is not
mutable, so the state component of the result is `s` itself. -/
def write (s : MockableSerial) (_b : List Nat) : IoResult × MockableSerial :=
  (IoResult.ok, s)

/-- Embeds lines 81–86 of `read`: if `actual_response` is empty and
`response_queue` is non-empty, pop the front frame and append it to
`actual_response`.  The `unwrap` on `pop_front` cannot fail because
the branch requires the queue non-empty. -/
def pullFrame (s : MockableSerial) : MockableSerial :=
  if s.actual_response.isEmpty then
    match s.response_queue with
    | [] => s
    | f :: rest =>
      { s with actual_response := s.actual_response ++ f
               response_queue := rest }
  else s

/-- Embeds lines 88–102 of `read`, the part after the pull: fetch the
byte at `last_read_index` (`none` models the panic of
`.get(..).unwrap()` when the index is out of range), return it as the
byte written into `buff[0]`, update cursor/frame depending on whether
the byte equals `stop_byte`, and report `actual_success` as the
outcome. -/
def readFetch (s : MockableSerial) :
    Option (IoResult × Nat × MockableSerial) :=
  match s.actual_response[s.last_read_index]? with
  | none => none
  | some v =>
    let s2 : MockableSerial :=
      if v = s.stop_byte then
        { s with last_read_index := 0, actual_response := [] }
      else
        { s with last_read_index := s.last_read_index + 1 }
    if s2.actual_success then some (IoResult.ok, v, s2)
    else some (IoResult.err ErrorKind.other "An error", v, s2)

/-- Embeds `read` (lines 79–103): the pull step followed by the fetch,
update and outcome report.  `none` models a panic; `some (r, v, s2)`
means the call returned `r`, wrote byte `v` into `buff[0]`, and left
the port in state `s2`. -/
def read (s : MockableSerial) : Option (IoResult × Nat × MockableSerial) :=
  readFetch (pullFrame s)

/-- Embeds `add_response` (lines 105–112): push a copy of `r` onto the
back of `response_queue`. -/
def add_response (s : MockableSerial) (r : List Nat) : MockableSerial :=
  { s with response_queue := s.response_queue ++ [r] }

/-- Iterates `read`, collecting the bytes delivered into the caller's
buffer in order.  `none` as soon as one call panics. -/
def readBytes : Nat → MockableSerial → Option (List Nat × MockableSerial)
  | 0, s => some ([], s)
  | n + 1, s =>
    match read s with
    | none => none
    | some (_, v, s2) =>
      match readBytes n s2 with
      | none => none
      | some (vs, s3) => some (v :: vs, s3)

/-- The outcome `read` reports (lines 98–102): `Ok(())` when
`actual_success` holds, otherwise `Err(Error::new(ErrorKind::Other,
"An error"))`. -/
def outcome (s : MockableSerial) : IoResult :=
  if s.actual_success then IoResult.ok
  else IoResult.err ErrorKind.other "An error"

end MockableSerial

/-- Embeds `MockableSerialBuilder::new` (lines 6–24): build a fresh
port and forward each frame of `initial_response_data` (front to
back) into `add_response`. -/
def MockableSerialBuilder.new (address : String) (baud : Nat)
    (stop_byte : Nat) (read_n_bytes : Nat)
    (initial_response_data : Option (List (List Nat))) : MockableSerial :=
  let m := MockableSerial.new address baud stop_byte read_n_bytes
  match initial_response_data with
  | none => m
  | some r_data => r_data.foldl MockableSerial.add_response m

/-- One call of the public API of `MockableSerial`, used to quantify
over arbitrary operation sequences. -/
inductive Op where
  | opNative
  | opWrite (b : List Nat)
  | opAdd (r : List Nat)
  | opRead
deriving Repr, DecidableEq

/-- Applies one API call to a state; `none` models a panicking
`read`. The byte delivered by a `read` is dropped: only the state is
tracked. -/
def applyOp (s : MockableSerial) : Op → Option MockableSerial
  | Op.opNative => some s.open_native
  | Op.opWrite b => some (s.write b).2
  | Op.opAdd r => some (s.add_response r)
  | Op.opRead => (s.read).map (fun x => x.2.2)

/-- Runs a sequence of API calls from a state; `none` as soon as one
panics. -/
def runOps : MockableSerial → List Op → Option MockableSerial
  | s, [] => some s
  | s, op :: ops =>
    match applyOp s op with
    | none => none
    | some s2 => runOps s2 ops

/-- The invariant exactly as the spec states it: `read_cursor` is a
valid index into `active_frame`, or `active_frame` is empty and
`read_cursor == 0`. -/
def invariantSpec (s : MockableSerial) : Prop :=
  s.last_read_index < s.actual_response.length ∨
    (s.actual_response = [] ∧ s.last_read_index = 0)

instance (s : MockableSerial) : Decidable (invariantSpec s) := by
  unfold invariantSpec; infer_instance

/-- The invariant the code actually maintains: the cursor never
exceeds the length of the active frame, and an empty active frame
forces cursor `0`.  (After delivering the last byte of a frame that
holds no stop byte, the cursor equals the length — a valid state of
the code, but not a valid index.) -/
def invariantWF (s : MockableSerial) : Prop :=
  s.last_read_index ≤ s.actual_response.length ∧
    (s.actual_response = [] → s.last_read_index = 0)

instance (s : MockableSerial) : Decidable (invariantWF s) := by
  unfold invariantWF; infer_instance

/-- Port with one queued frame that is empty, used against C3. -/
def cex3 : MockableSerial :=
  (MockableSerial.new "/dev/null" 115200 0x23 1).add_response []

/-- Port with two queued frames where the first frame carries the stop
byte `0x23` in its interior (and at its end), used against C4. -/
def cex4 : MockableSerial :=
  MockableSerialBuilder.new "/dev/null" 115200 0x23 1
    (some [[0x23, 0x61, 0x23], [0x62, 0x23]])

/-- Port with an injected failure outcome at the front of
`success_queue` and one active byte to read, used against C5. -/
def cex5 : MockableSerial :=
  { MockableSerial.new "/dev/null" 115200 0x23 1 with
      success_queue := [(false, ErrorKind.other)]
      actual_response := [0x01] }

/-- Port whose single queued frame `[0x01]` holds no stop byte, used
against C6. -/
def cex6 : MockableSerial :=
  (MockableSerial.new "/dev/null" 115200 0x23 1).add_response [0x01]

/-- The state reached from `cex6` by one `read`: the frame `[0x01]`
was pulled and fully delivered, the cursor sits one past the end. -/
def cex6after : MockableSerial :=
  { MockableSerial.new "/dev/null" 115200 0x23 1 with
      actual_response := [0x01]
      last_read_index := 1 }

/-- Port with one active byte and a pending failure default, used for
the C9 witness. -/
def wit9 : MockableSerial :=
  { MockableSerial.new "/dev/null" 115200 0x23 1 with
      actual_success := false
      actual_response := [0x01, 0x23] }

/-- The port of the Rust test `test_multiple_responses`: stop byte
`0x23`, initial frames `"test1#"` and `"test2#"`. -/
def wit4 : MockableSerial :=
  MockableSerialBuilder.new "/dev/null" 115200 0x23 1
    (some [[0x74, 0x65, 0x73, 0x74, 0x31, 0x23],
           [0x74, 0x65, 0x73, 0x74, 0x32, 0x23]])

/-- Port whose active frame `[0x01, 0x02]` holds no stop byte while a
frame waits in the queue, used for the C10 witness. -/
def wit10 : MockableSerial :=
  { MockableSerial.new "/dev/null" 115200 0x23 1 with
      actual_response := [0x01, 0x02]
      response_queue := [[0x61, 0x23]] }

namespace MockableSerial

theorem pullFrame_of_nonempty (s : MockableSerial)
    (h : s.actual_response ≠ []) : pullFrame s = s := by
  unfold pullFrame
  simp [h]

theorem pullFrame_of_queue_empty (s : MockableSerial)
    (h : s.response_queue = []) : pullFrame s = s := by
  unfold pullFrame
  rw [h]
  split <;> rfl

theorem pullFrame_pull (s : MockableSerial) (f : List Nat)
    (rest : List (List Nat)) (h1 : s.actual_response = [])
    (h2 : s.response_queue = f :: rest) :
    pullFrame s =
      { s with actual_response := f, response_queue := rest } := by
  unfold pullFrame
  rw [h2]
  simp [h1]

theorem pullFrame_stop_byte (s : MockableSerial) :
    (pullFrame s).stop_byte = s.stop_byte := by
  unfold pullFrame
  split
  · split <;> rfl
  · rfl

theorem pullFrame_last_read_index (s : MockableSerial) :
    (pullFrame s).last_read_index = s.last_read_index := by
  unfold pullFrame
  split
  · split <;> rfl
  · rfl

theorem pullFrame_actual_success (s : MockableSerial) :
    (pullFrame s).actual_success = s.actual_success := by
  unfold pullFrame
  split
  · split <;> rfl
  · rfl

theorem pullFrame_success_queue (s : MockableSerial) :
    (pullFrame s).success_queue = s.success_queue := by
  unfold pullFrame
  split
  · split <;> rfl
  · rfl

theorem readFetch_eq_none (s : MockableSerial)
    (hv : s.actual_response[s.last_read_index]? = none) :
    readFetch s = none := by
  unfold readFetch
  rw [hv]

theorem readFetch_eq_some (s : MockableSerial) (v : Nat)
    (hv : s.actual_response[s.last_read_index]? = some v) :
    readFetch s = some (outcome s, v,
      if v = s.stop_byte then
        { s with last_read_index := 0, actual_response := [] }
      else
        { s with last_read_index := s.last_read_index + 1 }) := by
  unfold readFetch outcome
  rw [hv]
  by_cases hstop : v = s.stop_byte
  · simp only [if_pos hstop]
    by_cases hs : s.actual_success <;> simp [hs]
  · simp only [if_neg hstop]
    by_cases hs : s.actual_success <;> simp [hs]

theorem read_eq_readFetch (s : MockableSerial)
    (h : s.actual_response ≠ []) : read s = readFetch s := by
  rw [read, pullFrame_of_nonempty s h]

theorem readBytes_succ (n : Nat) (s : MockableSerial) (r : IoResult)
    (v : Nat) (s2 : MockableSerial) (h : read s = some (r, v, s2)) :
    readBytes (n + 1) s =
      (readBytes n s2).map (fun q => (v :: q.1, q.2)) := by
  cases h2 : readBytes n s2 with
  | none => simp [readBytes, h, h2]
  | some p => simp [readBytes, h, h2]

theorem readBytes_succ_congr (n : Nat) (s t : MockableSerial)
    (h : read s = read t) :
    readBytes (n + 1) s = readBytes (n + 1) t := by
  unfold readBytes
  rw [h]

theorem readBytes_add (m n : Nat) :
    ∀ s : MockableSerial, readBytes (m + n) s =
      (readBytes m s).bind
        (fun p => (readBytes n p.2).map (fun q => (p.1 ++ q.1, q.2))) := by
  induction m with
  | zero =>
    intro s
    rw [Nat.zero_add]
    cases h : readBytes n s with
    | none => simp [readBytes, h]
    | some p => simp [readBytes, h]
  | succ m ih =>
    intro s
    rw [Nat.succ_add]
    cases hr : read s with
    | none => simp [readBytes, hr]
    | some x =>
      obtain ⟨r, v, s2⟩ := x
      rw [readBytes_succ _ _ _ _ _ hr, readBytes_succ _ _ _ _ _ hr, ih s2]
      cases hm : readBytes m s2 with
      | none => simp
      | some p =>
        obtain ⟨vs, s3⟩ := p
        cases hn : readBytes n s3 with
        | none => simp [hn]
        | some q => simp [hn]

theorem readBytes_no_stop (rest : List Nat) :
    ∀ (s : MockableSerial) (t : List Nat),
      s.actual_response.drop s.last_read_index = rest ++ t →
      (∀ b ∈ rest, b ≠ s.stop_byte) →
      readBytes rest.length s =
        some (rest,
          { s with last_read_index := s.last_read_index + rest.length }) := by
  induction rest with
  | nil =>
    intro s t _ _
    simp [readBytes]
  | cons v rest ih =>
    intro s t hdrop hstop
    have hne : s.actual_response ≠ [] := by
      intro h
      rw [h] at hdrop
      simp at hdrop
    have hv : s.actual_response[s.last_read_index]? = some v := by
      have h0 : (s.actual_response.drop s.last_read_index)[0]? = some v := by
        rw [hdrop]; simp
      rwa [List.getElem?_drop, Nat.add_zero] at h0
    have hvs : v ≠ s.stop_byte := hstop v (by simp)
    have hread : read s = some (outcome s, v,
        { s with last_read_index := s.last_read_index + 1 }) := by
      rw [read_eq_readFetch s hne, readFetch_eq_some s v hv, if_neg hvs]
    have hdrop2 : s.actual_response.drop (s.last_read_index + 1) =
        rest ++ t := by
      have h1 : (s.actual_response.drop s.last_read_index).drop 1 =
          rest ++ t := by
        rw [hdrop]; simp
      rw [List.drop_drop] at h1
      simpa [Nat.add_comm] using h1
    have hrec := ih { s with last_read_index := s.last_read_index + 1 } t
      hdrop2 (fun b hb => hstop b (List.mem_cons_of_mem v hb))
    rw [show (v :: rest).length = rest.length + 1 from rfl,
      readBytes_succ _ _ _ _ _ hread, hrec]
    have harith : s.last_read_index + 1 + rest.length =
        s.last_read_index + (rest.length + 1) := by omega
    simp [harith]

theorem readBytes_frame (g : List Nat) (s : MockableSerial)
    (hdrop : s.actual_response.drop s.last_read_index =
      g ++ [s.stop_byte])
    (hg : ∀ b ∈ g, b ≠ s.stop_byte) :
    readBytes (g.length + 1) s =
      some (g ++ [s.stop_byte],
        { s with actual_response := [], last_read_index := 0 }) := by
  have hne : s.actual_response ≠ [] := by
    intro h
    rw [h] at hdrop
    simp at hdrop
  have hfirst := readBytes_no_stop g s [s.stop_byte] hdrop hg
  rw [readBytes_add g.length 1 s, hfirst]
  have hv : s.actual_response[s.last_read_index + g.length]? =
      some s.stop_byte := by
    have h0 : (s.actual_response.drop s.last_read_index)[g.length]? =
        some s.stop_byte := by
      rw [hdrop]
      simp
    rwa [List.getElem?_drop] at h0
  have hread : read { s with last_read_index :=
      s.last_read_index + g.length } =
      some (outcome s, s.stop_byte,
        { s with last_read_index := 0, actual_response := [] }) := by
    rw [read_eq_readFetch { s with last_read_index :=
        s.last_read_index + g.length } hne,
      readFetch_eq_some { s with last_read_index :=
        s.last_read_index + g.length } s.stop_byte hv]
    simp [outcome]
  simp only [Option.some_bind]
  rw [show (1 : Nat) = 0 + 1 from rfl,
    readBytes_succ 0 _ _ _ _ hread]
  simp [readBytes]

theorem readBytes_frame_pull (g : List Nat) (s : MockableSerial)
    (rest : List (List Nat))
    (hresp : s.actual_response = []) (hcur : s.last_read_index = 0)
    (hq : s.response_queue = (g ++ [s.stop_byte]) :: rest)
    (hg : ∀ b ∈ g, b ≠ s.stop_byte) :
    readBytes (g.length + 1) s =
      some (g ++ [s.stop_byte],
        { s with actual_response := [], last_read_index := 0,
                 response_queue := rest }) := by
  have hpull := pullFrame_pull s (g ++ [s.stop_byte]) rest hresp hq
  have hfne :
      ({ s with actual_response := g ++ [s.stop_byte], response_queue := rest } :
        MockableSerial).actual_response ≠ [] := by
    simp
  have hcongr : read s =
      read { s with actual_response := g ++ [s.stop_byte], response_queue := rest } := by
    rw [read, hpull, read, pullFrame_of_nonempty _ hfne]
  have hframe := readBytes_frame g
    { s with actual_response := g ++ [s.stop_byte], response_queue := rest }
    (by simp [hcur]) hg
  rw [readBytes_succ_congr g.length _ _ hcongr, hframe]

end MockableSerial

open MockableSerial

/-- C1: on a `read` with an empty active frame, cursor 0 and a
non-empty frame queue, the front frame is popped and installed as the
active frame with the cursor still at 0, and the call then delivers
that frame's first byte; the pull step leaves the state untouched
whenever the active frame is non-empty or the queue is empty, so at
most one frame is in flight at a time. -/
theorem C1_pull_only_when_idle (s : MockableSerial) :
    (∀ f rest, s.actual_response = [] → s.response_queue = f :: rest →
      s.last_read_index = 0 →
      pullFrame s = { s with actual_response := f, response_queue := rest } ∧
      (pullFrame s).last_read_index = 0 ∧
      (read s).map (fun x => x.2.1) = f[0]?) ∧
    (s.actual_response ≠ [] → pullFrame s = s) ∧
    (s.response_queue = [] → pullFrame s = s) := by
  refine ⟨?_, pullFrame_of_nonempty s, pullFrame_of_queue_empty s⟩
  intro f rest hresp hq hcur
  have hpull := pullFrame_pull s f rest hresp hq
  refine ⟨hpull, by rw [hpull]; exact hcur, ?_⟩
  rw [MockableSerial.read, hpull]
  cases f with
  | nil =>
    rw [readFetch_eq_none]
    · rfl
    · simp [hcur]
  | cons v fs =>
    rw [readFetch_eq_some _ v (by simp [hcur])]
    simp

/-- Witness for C1 at the concrete port `cex6` (queue `[[0x01]]`). -/
theorem C1_pull_only_when_idle_witness :
    pullFrame cex6 =
      { cex6 with actual_response := [0x01], response_queue := [] } ∧
    (pullFrame cex6).last_read_index = 0 ∧
    (MockableSerial.read cex6).map (fun x => x.2.1) = [0x01][0]? :=
  (C1_pull_only_when_idle cex6).1 [0x01] [] rfl rfl rfl

/-- C2: a `read` that delivers the stop byte clears the active frame
and resets the cursor to 0 whatever the queue holds; a `read` that
delivers any other byte increments the cursor by exactly 1 and leaves
the frame being read (the active frame after the pull step of that
same call, which is the pre-call active frame whenever that was
non-empty) unchanged. -/
theorem C2_stop_byte_completion (s : MockableSerial) (r : IoResult)
    (v : Nat) (s2 : MockableSerial) (h : read s = some (r, v, s2)) :
    (v = s.stop_byte → s2.actual_response = [] ∧ s2.last_read_index = 0) ∧
    (v ≠ s.stop_byte →
      s2.last_read_index = s.last_read_index + 1 ∧
      s2.actual_response = (pullFrame s).actual_response ∧
      (s.actual_response ≠ [] → s2.actual_response = s.actual_response)) := by
  rw [MockableSerial.read] at h
  cases hv : (pullFrame s).actual_response[(pullFrame s).last_read_index]? with
  | none =>
    rw [readFetch_eq_none _ hv] at h
    cases h
  | some w =>
    rw [readFetch_eq_some _ w hv] at h
    simp only [Option.some.injEq, Prod.mk.injEq] at h
    obtain ⟨-, hw, hs2⟩ := h
    subst hw
    by_cases hstop : w = (pullFrame s).stop_byte
    · rw [if_pos hstop] at hs2
      rw [pullFrame_stop_byte] at hstop
      subst hs2
      exact ⟨fun _ => ⟨rfl, rfl⟩, fun hne => absurd hstop hne⟩
    · rw [if_neg hstop] at hs2
      rw [pullFrame_stop_byte] at hstop
      subst hs2
      refine ⟨fun heq => absurd heq hstop, fun _ => ⟨?_, rfl, ?_⟩⟩
      · simp [pullFrame_last_read_index]
      · intro hne
        rw [pullFrame_of_nonempty s hne]

/-- Witness for C2 at the concrete port `cex6`: the delivered byte
`0x01` is not the stop byte `0x23`, so the cursor moves 0 → 1 and the
pulled frame `[0x01]` stays in place. -/
theorem C2_stop_byte_completion_witness :
    cex6after.last_read_index = cex6.last_read_index + 1 ∧
    cex6after.actual_response = (pullFrame cex6).actual_response ∧
    (cex6.actual_response ≠ [] →
      cex6after.actual_response = cex6.actual_response) :=
  (C2_stop_byte_completion cex6 IoResult.ok 0x01 cex6after (by decide)).2
    (by decide)

/-- C3 counterexample: the claim's precondition "the active frame is
non-empty or the frame queue is non-empty (with a valid cursor)"
holds at `cex3` (empty active frame, cursor 0, queue `[[]]`), yet the
byte fetch panics, because the pulled front frame is itself empty. -/
theorem C3_counterexample :
    cex3.actual_response = [] ∧ cex3.response_queue ≠ [] ∧
    cex3.last_read_index = 0 ∧ MockableSerial.read cex3 = none := by
  decide

/-- C3 amended: calling `read` with an empty active frame and an
empty queue panics rather than returning an error value; conversely
the byte fetch never panics when the active frame is non-empty with
the cursor a valid index, or when the active frame is empty with
cursor 0 and the queue's *front frame is non-empty*. -/
theorem C3_empty_read_panics (s : MockableSerial) :
    (s.actual_response = [] → s.response_queue = [] → read s = none) ∧
    (s.last_read_index < s.actual_response.length → read s ≠ none) ∧
    (s.actual_response = [] → s.last_read_index = 0 →
      ∀ f rest, s.response_queue = f :: rest → f ≠ [] →
        read s ≠ none) := by
  refine ⟨?_, ?_, ?_⟩
  · intro hresp hq
    rw [MockableSerial.read, pullFrame_of_queue_empty s hq, readFetch_eq_none]
    simp [hresp]
  · intro hlt
    have hne : s.actual_response ≠ [] := by
      intro h
      rw [h] at hlt
      simp at hlt
    rw [read_eq_readFetch s hne,
      readFetch_eq_some s _ (List.getElem?_eq_getElem hlt)]
    simp
  · intro hresp hcur f rest hq hf
    rw [MockableSerial.read, pullFrame_pull s f rest hresp hq]
    cases f with
    | nil => exact absurd rfl hf
    | cons v fs =>
      rw [readFetch_eq_some _ v (by simp [hcur])]
      simp

/-- Witness for C3 at concrete ports: a fresh port panics on `read`;
`cex6` (non-empty front frame) does not panic. -/
theorem C3_empty_read_panics_witness :
    MockableSerial.read (MockableSerial.new "/dev/null" 115200 0x23 1) =
      none ∧
    MockableSerial.read cex6 ≠ none :=
  ⟨(C3_empty_read_panics (MockableSerial.new "/dev/null" 115200 0x23 1)).1
      rfl rfl,
    (C3_empty_read_panics cex6).2.2 rfl rfl [0x01] [] rfl (by decide)⟩

theorem open_native_eq (s : MockableSerial) : open_native s = s := by
  cases s
  rfl

theorem pullFrame_set_success (s : MockableSerial) (c : Bool) :
    pullFrame { s with actual_success := c } =
      { pullFrame s with actual_success := c } := by
  cases s with
  | mk ad bd su resp q sq sb rn li =>
    unfold MockableSerial.pullFrame
    by_cases h : resp.isEmpty
    · simp only [h, if_true]
      cases q <;> rfl
    · simp only [h, Bool.false_eq_true, if_false]

/-- C4 counterexample: with stop byte `0x23`, the first enqueued frame
`[0x23, 0x61, 0x23]` ends with the stop byte, yet its middle byte
`0x61` is never delivered: the second `read` already yields `0x62`,
the first byte of the second frame, and five reads cannot deliver the
five enqueued bytes (the fifth read panics on an exhausted port). -/
theorem C4_counterexample :
    cex4.response_queue = [[0x23, 0x61, 0x23], [0x62, 0x23]] ∧
    (readBytes 2 cex4).map Prod.fst = some [0x23, 0x62] ∧
    readBytes 5 cex4 = none := by
  decide

/-- C4 amended: for two enqueued frames whose *only* stop byte is
their final byte, repeated reads deliver every byte of the first
frame, in order, before any byte of the second; afterwards both
frames are consumed and the rest of the queue is untouched.  The
concrete `"test1#"`/`"test2#"` scenario is the witness below. -/
theorem C4_fifo_two_frames (s : MockableSerial) (g1 g2 : List Nat)
    (q : List (List Nat))
    (hresp : s.actual_response = []) (hcur : s.last_read_index = 0)
    (hq : s.response_queue =
      (g1 ++ [s.stop_byte]) :: (g2 ++ [s.stop_byte]) :: q)
    (hg1 : ∀ b ∈ g1, b ≠ s.stop_byte)
    (hg2 : ∀ b ∈ g2, b ≠ s.stop_byte) :
    readBytes ((g1.length + 1) + (g2.length + 1)) s =
      some ((g1 ++ [s.stop_byte]) ++ (g2 ++ [s.stop_byte]),
        { s with actual_response := [], last_read_index := 0,
                 response_queue := q }) := by
  have h1 := readBytes_frame_pull g1 s ((g2 ++ [s.stop_byte]) :: q)
    hresp hcur hq hg1
  have h2 := readBytes_frame_pull g2
    { s with actual_response := [], last_read_index := 0,
             response_queue := (g2 ++ [s.stop_byte]) :: q }
    q rfl rfl rfl hg2
  rw [readBytes_add (g1.length + 1) (g2.length + 1) s, h1]
  simp only [Option.some_bind]
  rw [h2]
  simp

/-- Witness for C4: the Rust test `test_multiple_responses` scenario —
stop byte `0x23`, frames `"test1#"` and `"test2#"` — delivers the 12
bytes `"test1#test2#"` in order across two read-to-delimiter loops. -/
theorem C4_fifo_two_frames_witness :
    readBytes 12 wit4 =
      some ([0x74, 0x65, 0x73, 0x74, 0x31, 0x23,
             0x74, 0x65, 0x73, 0x74, 0x32, 0x23],
        { wit4 with actual_response := [], last_read_index := 0,
                    response_queue := [] }) := by
  have := C4_fifo_two_frames wit4 [0x74, 0x65, 0x73, 0x74, 0x31]
    [0x74, 0x65, 0x73, 0x74, 0x32] [] rfl rfl rfl
    (by decide) (by decide)
  simpa using this

/-- C5 counterexample: at `cex5` an outcome `(false, Other)` is
injected at the front of `success_queue` for the next call, yet that
`read` reports `Ok` (not the injected failure) and leaves
`success_queue` untouched: injected outcomes are never consumed nor
reported. -/
theorem C5_counterexample :
    cex5.success_queue = [(false, ErrorKind.other)] ∧
    (MockableSerial.read cex5).map Prod.fst = some IoResult.ok ∧
    (MockableSerial.read cex5).map (fun x => x.2.2.success_queue) =
      some [(false, ErrorKind.other)] := by
  decide

/-- C5 amended: `read` never consults or consumes `success_queue`; it
always reports the persistent default `actual_success` (initially
success, with `success_queue` initially empty), and a failure default
would be reported as a generic I/O error of kind `Other`. -/
theorem C5_default_outcome_only (a : String) (bd sb rn : Nat)
    (s : MockableSerial) (r : IoResult) (v : Nat) (s2 : MockableSerial)
    (h : MockableSerial.read s = some (r, v, s2)) :
    (MockableSerial.new a bd sb rn).actual_success = true ∧
    (MockableSerial.new a bd sb rn).success_queue = [] ∧
    s2.success_queue = s.success_queue ∧
    s2.actual_success = s.actual_success ∧
    r = outcome s ∧
    (s.actual_success = true → r = IoResult.ok) ∧
    (s.actual_success = false →
      r = IoResult.err ErrorKind.other "An error") := by
  rw [MockableSerial.read] at h
  cases hv : (pullFrame s).actual_response[(pullFrame s).last_read_index]? with
  | none =>
    rw [readFetch_eq_none _ hv] at h
    cases h
  | some w =>
    rw [readFetch_eq_some _ w hv] at h
    simp only [Option.some.injEq, Prod.mk.injEq] at h
    obtain ⟨hr, -, hs2⟩ := h
    have hsq : s2.success_queue = (pullFrame s).success_queue := by
      rw [← hs2]
      split <;> rfl
    have hsu : s2.actual_success = (pullFrame s).actual_success := by
      rw [← hs2]
      split <;> rfl
    have hout : outcome (pullFrame s) = outcome s := by
      unfold MockableSerial.outcome
      rw [pullFrame_actual_success]
    refine ⟨rfl, rfl, ?_, ?_, ?_, ?_, ?_⟩
    · rw [hsq, pullFrame_success_queue]
    · rw [hsu, pullFrame_actual_success]
    · rw [← hr, hout]
    · intro hsucc
      rw [← hr, hout]
      simp [MockableSerial.outcome, hsucc]
    · intro hfail
      rw [← hr, hout]
      simp [MockableSerial.outcome, hfail]

/-- Witness for C5 at the concrete port `cex5`. -/
theorem C5_default_outcome_only_witness :
    (MockableSerial.new "/dev/null" 115200 0x23 1).actual_success = true ∧
    (MockableSerial.new "/dev/null" 115200 0x23 1).success_queue = [] ∧
    ({ cex5 with last_read_index := 1 } : MockableSerial).success_queue =
      cex5.success_queue ∧
    ({ cex5 with last_read_index := 1 } : MockableSerial).actual_success =
      cex5.actual_success ∧
    IoResult.ok = outcome cex5 ∧
    (cex5.actual_success = true → IoResult.ok = IoResult.ok) ∧
    (cex5.actual_success = false →
      IoResult.ok = IoResult.err ErrorKind.other "An error") :=
  C5_default_outcome_only "/dev/null" 115200 0x23 1 cex5 IoResult.ok 0x01
    { cex5 with last_read_index := 1 } (by decide)

/-- C6 counterexample: the spec's invariant holds at `cex6` (one
queued frame `[0x01]` that holds no stop byte), yet after one
successful `read` the cursor equals 1 while the non-empty active
frame has length 1: the cursor is no longer a valid index and the
frame is not empty. -/
theorem C6_counterexample :
    invariantSpec cex6 ∧
    MockableSerial.read cex6 = some (IoResult.ok, 0x01, cex6after) ∧
    ¬ invariantSpec cex6after := by
  decide

theorem invariantWF_read (s : MockableSerial) (r : IoResult) (v : Nat)
    (s2 : MockableSerial) (h : MockableSerial.read s = some (r, v, s2)) :
    invariantWF s2 := by
  rw [MockableSerial.read] at h
  cases hv : (pullFrame s).actual_response[(pullFrame s).last_read_index]? with
  | none =>
    rw [readFetch_eq_none _ hv] at h
    cases h
  | some w =>
    rw [readFetch_eq_some _ w hv] at h
    simp only [Option.some.injEq, Prod.mk.injEq] at h
    obtain ⟨-, -, hs2⟩ := h
    have hlt : (pullFrame s).last_read_index <
        (pullFrame s).actual_response.length :=
      (List.getElem?_eq_some.mp hv).1
    rw [← hs2]
    split
    · exact ⟨Nat.zero_le _, fun _ => rfl⟩
    · refine ⟨hlt, fun hemp => ?_⟩
      rw [hemp] at hlt
      simp at hlt

theorem invariantWF_applyOp (s : MockableSerial) (op : Op)
    (s2 : MockableSerial) (hinv : invariantWF s)
    (h : applyOp s op = some s2) : invariantWF s2 := by
  cases op with
  | opNative =>
    simp only [applyOp, Option.some.injEq] at h
    rw [← h, open_native_eq]
    exact hinv
  | opWrite b =>
    simp only [applyOp, Option.some.injEq] at h
    rw [← h]
    exact hinv
  | opAdd r =>
    simp only [applyOp, Option.some.injEq] at h
    rw [← h]
    exact ⟨hinv.1, hinv.2⟩
  | opRead =>
    simp only [applyOp] at h
    cases hr : MockableSerial.read s with
    | none =>
      rw [hr] at h
      cases h
    | some x =>
      obtain ⟨r, v, t⟩ := x
      rw [hr] at h
      simp only [Option.map_some', Option.some.injEq] at h
      rw [← h]
      exact invariantWF_read s r v t hr

theorem invariantWF_runOps (ops : List Op) :
    ∀ s s2 : MockableSerial, invariantWF s →
      runOps s ops = some s2 → invariantWF s2 := by
  induction ops with
  | nil =>
    intro s s2 hinv h
    simp only [runOps, Option.some.injEq] at h
    rw [← h]
    exact hinv
  | cons op ops ih =>
    intro s s2 hinv h
    rw [runOps] at h
    cases ha : applyOp s op with
    | none =>
      rw [ha] at h
      cases h
    | some t =>
      rw [ha] at h
      exact ih t s2 (invariantWF_applyOp s op t hinv ha) h

/-- C6 amended: the invariant the code maintains across every
construction and every sequence of open/write/enqueue and
non-panicking reads is the weaker `invariantWF`: the cursor never
exceeds the active frame's length (it may *equal* it after the last
byte of a stop-byte-free frame, when it is not a valid index), and an
empty active frame forces cursor 0. -/
theorem C6_cursor_bounded (a : String) (bd sb rn : Nat) (ops : List Op)
    (s2 : MockableSerial)
    (h : runOps (MockableSerial.new a bd sb rn) ops = some s2) :
    invariantWF s2 :=
  invariantWF_runOps ops (MockableSerial.new a bd sb rn) s2
    ⟨Nat.zero_le _, fun _ => rfl⟩ h

/-- Witness for C6: the operation sequence enqueue `[0x01]` then one
`read` reaches exactly the state `cex6after` of the counterexample,
and `invariantWF` holds there. -/
theorem C6_cursor_bounded_witness : invariantWF cex6after :=
  C6_cursor_bounded "/dev/null" 115200 0x23 1
    [Op.opAdd [0x01], Op.opRead] cex6after (by decide)

/-- C7: `write` always returns success and leaves every field of the
port unchanged, for every input byte sequence and every port state. -/
theorem C7_write_noop (s : MockableSerial) (b : List Nat) :
    MockableSerial.write s b = (IoResult.ok, s) := rfl

/-- C8: a constructed port carries exactly the construction arguments
in `address`, `baud`, `stop_byte` and `read_n_bytes`, and
`open_native` returns a state equal to its source in every field
(configuration and queue/buffer state alike), the source itself being
untouched in this pure embedding of the field-by-field copy. -/
theorem C8_config_roundtrip (a : String) (bd sb rn : Nat) :
    ((MockableSerial.new a bd sb rn).address = a ∧
     (MockableSerial.new a bd sb rn).baud = bd ∧
     (MockableSerial.new a bd sb rn).stop_byte = sb ∧
     (MockableSerial.new a bd sb rn).read_n_bytes = rn) ∧
    (∀ s : MockableSerial, open_native s = s) :=
  ⟨⟨rfl, rfl, rfl, rfl⟩, open_native_eq⟩

/-- C9: a `read` that reports the failure outcome still delivers the
byte at the cursor into the caller's buffer and advances the frame
state exactly as the same call with a success default would: the
error return is not atomic. -/
theorem C9_error_not_atomic (s : MockableSerial) (r : IoResult) (v : Nat)
    (s2 : MockableSerial) (hfail : s.actual_success = false)
    (h : MockableSerial.read s = some (r, v, s2)) :
    r = IoResult.err ErrorKind.other "An error" ∧
    MockableSerial.read { s with actual_success := true } =
      some (IoResult.ok, v, { s2 with actual_success := true }) := by
  rw [MockableSerial.read] at h
  cases hv : (pullFrame s).actual_response[(pullFrame s).last_read_index]? with
  | none =>
    rw [readFetch_eq_none _ hv] at h
    cases h
  | some w =>
    rw [readFetch_eq_some _ w hv] at h
    simp only [Option.some.injEq, Prod.mk.injEq] at h
    obtain ⟨hr, hw, hs2⟩ := h
    have hpfail : (pullFrame s).actual_success = false := by
      rw [pullFrame_actual_success]
      exact hfail
    constructor
    · rw [← hr]
      simp [MockableSerial.outcome, hpfail]
    · rw [MockableSerial.read, pullFrame_set_success,
        readFetch_eq_some { pullFrame s with actual_success := true } w hv]
      rw [← hw, ← hs2]
      by_cases hst : w = (pullFrame s).stop_byte <;>
        simp [MockableSerial.outcome, hst]

/-- Witness for C9 at the concrete port `wit9` (failure default,
active frame `[0x01, 0x23]`): the failing read still delivers `0x01`
and advances the cursor. -/
theorem C9_error_not_atomic_witness :
    IoResult.err ErrorKind.other "An error" =
      IoResult.err ErrorKind.other "An error" ∧
    MockableSerial.read { wit9 with actual_success := true } =
      some (IoResult.ok, 0x01,
        { wit9 with actual_success := true, last_read_index := 1 }) :=
  C9_error_not_atomic wit9 (IoResult.err ErrorKind.other "An error") 0x01
    { wit9 with last_read_index := 1 } rfl (by decide)

/-- C10: a non-empty active frame that holds no stop byte is fully
delivered byte by byte, and the next `read` then panics even though
the frame queue is non-empty, because the frame is never cleared
without a stop byte and a new frame is pulled only when the active
frame is empty. -/
theorem C10_no_stop_frame_panics (s : MockableSerial)
    (hne : s.actual_response ≠ []) (hcur : s.last_read_index = 0)
    (hstop : ∀ b ∈ s.actual_response, b ≠ s.stop_byte)
    (_hq : s.response_queue ≠ []) :
    readBytes s.actual_response.length s =
      some (s.actual_response,
        { s with last_read_index := s.actual_response.length }) ∧
    MockableSerial.read
      { s with last_read_index := s.actual_response.length } = none := by
  constructor
  · have := readBytes_no_stop s.actual_response s [] (by simp [hcur]) hstop
    simpa [hcur] using this
  · rw [read_eq_readFetch { s with last_read_index :=
        s.actual_response.length } hne, readFetch_eq_none]
    simp

/-- Witness for C10 at the concrete port `wit10` (active frame
`[0x01, 0x02]` with no stop byte, one frame waiting in the queue). -/
theorem C10_no_stop_frame_panics_witness :
    readBytes 2 wit10 =
      some ([0x01, 0x02], { wit10 with last_read_index := 2 }) ∧
    MockableSerial.read { wit10 with last_read_index := 2 } = none := by
  have := C10_no_stop_frame_panics wit10 (by decide) rfl (by decide)
    (by decide)
  simpa using this
